import Mathlib

/-!
Verification of the crix exchange adapter (catalyst repository).

The development shallowly embeds the two source files
`src/catalyst/exchange/ccxt/crix_to_ccxt.py` (namespace `CrixToCcxt`) and
`src/catalyst/exchange/ccxt/crix.py` (namespace `Crix`).  Python strings are
modelled as `List Char`, Python numbers (int and float alike, where no
float-rounding question is at stake) as `Int` or `Rat`, Python dictionaries as
association lists with insertion-order update semantics, datetime objects as
rational epoch seconds, and raised Python exceptions as the `Except PyExc`
monad.  The exchange transport (HTTP / crix SDK) is an opaque collaborator and
is modelled as total functions supplied through an environment record.
-/

set_option autoImplicit false

deriving instance DecidableEq for Except

namespace CrixAdapter

/-- Python exceptions that the embedded code can raise.  The constructor
`unknownOrderStatus` models the error named by the specification for order
statuses outside 0, 1, 2; the source never defines nor raises such an error,
the constructor exists only so that statements about that error can be
written down. -/
inductive PyExc where
  | nameError (n : String)
  | unboundLocalError (n : String)
  | attributeError (n : String)
  | keyError (k : List Char)
  | osError
  | unknownOrderStatus
  deriving DecidableEq, Repr

/-- Python truthiness of an optional numeric value: `None` and `0` are falsy,
every other number is truthy. -/
def pyTruthyOptInt : Option Int → Bool
  | none => false
  | some t => t != 0

/-- Python `str.upper` for single characters, mapped over the string. -/
def pyUpper (s : List Char) : List Char :=
  s.map Char.toUpper

/-- Python `str.replace(old, new)` restricted to one-character patterns, which
is exactly a character-wise replacement (single characters cannot overlap). -/
def pyReplaceChar (old new : Char) : List Char → List Char
  | [] => []
  | c :: t => (if c = old then new else c) :: pyReplaceChar old new t

/-- Python dictionary insertion: an existing key keeps its position and gets
the new value, a fresh key is appended at the end. -/
def dictInsert {α β : Type} [DecidableEq α] (d : List (α × β)) (k : α) (v : β) :
    List (α × β) :=
  if d.any (fun p => p.1 = k) then
    d.map fun p => if p.1 = k then (k, v) else p
  else
    d ++ [(k, v)]

namespace CrixToCcxt

/-- Source `ccxt_to_crix_symbol` (crix_to_ccxt.py line 702): replace the
normalized separator by the native one. -/
def ccxt_to_crix_symbol (symbol : List Char) : List Char :=
  pyReplaceChar '/' '_' symbol

/-- Source `crix_to_ccxt_symbol` (crix_to_ccxt.py line 706): replace the
native separator by the normalized one. -/
def crix_to_ccxt_symbol (symbol : List Char) : List Char :=
  pyReplaceChar '_' '/' symbol

/-- Native order record as consumed by `parse_order`: the fields the source
reads from the crix SDK order object.  The status enumerant is carried as its
integer `value`; decimal monetary fields are carried exactly as rationals
(`float(...)` on them is the identity in this model, no rounding question is
at stake in the verified claims). -/
structure NativeOrder where
  id : Int
  statusValue : Int
  symbol_name : List Char
  is_buy : Bool
  price : Rat
  quantity : Rat
  filled_quantity : Rat
  deriving DecidableEq, Repr

/-- Normalized order record built by `parse_order`. -/
structure ParsedOrder where
  id : List Char
  status : List Char
  symbol : List Char
  type : List Char
  side : List Char
  price : Rat
  amount : Rat
  filled : Rat
  remaining : Rat
  cost : Rat
  deriving DecidableEq, Repr

/-- Python `str` on an integer. -/
def pyStrInt (n : Int) : List Char :=
  if n < 0 then '-' :: Nat.toDigits 10 n.natAbs else Nat.toDigits 10 n.natAbs

/-- Source `parse_order` (crix_to_ccxt.py lines 612-646).  The `if/elif` chain
on `status.value` has no `else` branch, so for a status outside 0, 1, 2 the
local variable `ord_status` is never assigned and its later use in the result
dictionary raises `UnboundLocalError` (a `NameError` subclass); the model
surfaces that as `PyExc.unboundLocalError`.  No `UnknownOrderStatus` error
exists anywhere in the source. -/
def parse_order (order : NativeOrder) : Except PyExc ParsedOrder :=
  let ord_id := pyStrInt order.id
  let ord_status : Option (List Char) :=
    if order.statusValue = 0 then some "open".toList
    else if order.statusValue = 1 then some "closed".toList
    else if order.statusValue = 2 then some "canceled".toList
    else none
  match ord_status with
  | none => Except.error (PyExc.unboundLocalError "ord_status")
  | some st =>
    let symbol := crix_to_ccxt_symbol order.symbol_name
    let side := if order.is_buy then "buy".toList else "sell".toList
    let price := order.price
    let amount := order.quantity
    let filled := order.filled_quantity
    let remaining := amount - filled
    let cost := filled * price
    Except.ok
      { id := ord_id
        status := st
        symbol := symbol
        type := "limit".toList
        side := side
        price := price
        amount := amount
        filled := filled
        remaining := remaining
        cost := cost }

/-- Projection of a `parse_order` outcome onto the status field. -/
def orderStatusResult (r : Except PyExc ParsedOrder) : Except PyExc (List Char) :=
  r.map ParsedOrder.status

/-- Record processed by `filter_array_by_since`: the timestamp entry of the
dictionary (absent or a numeric value) plus an opaque payload giving the
record its identity. -/
structure TsRecord where
  timestamp : Option Int
  payload : Int
  deriving DecidableEq, Repr

/-- Source `filter_array_by_since` (crix_to_ccxt.py lines 648-658).  The
source tests `if timestamp:`, Python truthiness, so both a missing timestamp
and a timestamp equal to zero take the unconditional-keep branch. -/
def filter_array_by_since : List TsRecord → Int → List TsRecord
  | [], _ => []
  | item :: rest, since =>
    match item.timestamp with
    | some t =>
      if t ≠ 0 then
        if t ≥ since then item :: filter_array_by_since rest since
        else filter_array_by_since rest since
      else item :: filter_array_by_since rest since
    | none => item :: filter_array_by_since rest since

/-- The crix SDK resolution enumeration referenced by the timeframes table. -/
inductive Resolution where
  | one_minute
  | five_minutes
  | fifteen_minutes
  | half_an_hour
  | hour
  | two_hours
  | four_hours
  | day
  deriving DecidableEq, Repr

/-- Source timeframes dictionary (crix_to_ccxt.py lines 59-68), as the lookup
`self.timeframes[timeframe]`; a missing key raises `KeyError`, here `none`. -/
def timeframes (t : List Char) : Option Resolution :=
  if t = "1m".toList then some Resolution.one_minute
  else if t = "5m".toList then some Resolution.five_minutes
  else if t = "15m".toList then some Resolution.fifteen_minutes
  else if t = "30m".toList then some Resolution.half_an_hour
  else if t = "1h".toList then some Resolution.hour
  else if t = "2h".toList then some Resolution.two_hours
  else if t = "4h".toList then some Resolution.four_hours
  else if t = "1d".toList then some Resolution.day
  else none

/-- Source `get_min_hr_day` (crix_to_ccxt.py lines 690-695).  Python `//` and
`%` are floor division and floor modulus, `Int.fdiv` and `Int.fmod` here.
Note that `hours` is the total number of whole hours, not reduced modulo 24,
while `days` counts the same whole days again. -/
def get_min_hr_day (total_time : Int) : Int × Int × Int :=
  let hours := Int.fdiv total_time 60
  let days := Int.fdiv hours 24
  let minutes := Int.fmod total_time 60
  (days, hours, minutes)

/-- Total minutes computed by the `if/elif` chain of
`generate_ohlcv_start_time` (crix_to_ccxt.py lines 668-683); an unsupported
token leaves `total_minutes` unassigned, hence `none`. -/
def timeframe_total_minutes (timeframe : List Char) (limit : Int) : Option Int :=
  if timeframe = "1m".toList then some limit
  else if timeframe = "5m".toList then some (limit * 5)
  else if timeframe = "15m".toList then some (limit * 15)
  else if timeframe = "30m".toList then some (limit * 30)
  else if timeframe = "1h".toList then some (limit * 60)
  else if timeframe = "2h".toList then some (limit * 60 * 2)
  else if timeframe = "4h".toList then some (limit * 60 * 4)
  else if timeframe = "1d".toList then some (limit * 60 * 24)
  else none

/-- Source `generate_ohlcv_start_time` (crix_to_ccxt.py lines 660-688).
Datetimes are epoch seconds as rationals; `timedelta(days, hours, minutes)`
subtracts exactly `days * 86400 + hours * 3600 + minutes * 60` seconds.  The
`since` argument is accepted and ignored exactly as in the source.  For an
unsupported timeframe the unassigned local `total_minutes` is referenced,
raising `UnboundLocalError`. -/
def generate_ohlcv_start_time (now : Rat) (timeframe : List Char)
    (since : Option Rat) (limit : Int) : Except PyExc Rat :=
  match timeframe_total_minutes timeframe limit with
  | none => Except.error (PyExc.unboundLocalError "total_minutes")
  | some total_minutes =>
    let dhm := get_min_hr_day total_minutes
    let days := dhm.1
    let hours := dhm.2.1
    let minutes := dhm.2.2
    let delta_to_sustract : Int := days * 86400 + hours * 3600 + minutes * 60
    Except.ok (now - (delta_to_sustract : Rat))

/-- Source `throttle` (crix_to_ccxt.py lines 98-106, identically crix.py
lines 65-73), as the number of seconds slept.  The stored
`lastRestRequestTimestamp` and `datetime.now().timestamp()` are epoch
seconds, while `rateLimit` is configured in milliseconds (1000 in
crix_to_ccxt.py, 2000 in crix.py with the comment
`milliseconds = seconds * 1000`); `time.sleep(delay / 1000.0)` sleeps for
`delay` read as milliseconds. -/
def throttle (rateLimit now lastRestRequestTimestamp : Rat) : Rat :=
  let elapsed := now - lastRestRequestTimestamp
  if elapsed < rateLimit then (rateLimit - elapsed) / 1000 else 0

/-- Civil date from a count of days since 1970-01-01, the standard
days-to-civil algorithm on floor arithmetic; returns (year, month, day). -/
def civilFromDays (z0 : Int) : Int × Int × Int :=
  let z := z0 + 719468
  let era := Int.fdiv z 146097
  let doe := z - era * 146097
  let yoe := Int.fdiv (doe - Int.fdiv doe 1460 + Int.fdiv doe 36524 - Int.fdiv doe 146096) 365
  let y := yoe + era * 400
  let doy := doe - (365 * yoe + Int.fdiv yoe 4 - Int.fdiv yoe 100)
  let mp := Int.fdiv (5 * doy + 2) 153
  let d := doy - Int.fdiv (153 * mp + 2) 5 + 1
  let m := mp + (if mp < 10 then 3 else -9)
  (y + (if m ≤ 2 then 1 else 0), m, d)

/-- Zero-padded decimal rendering of a nonnegative integer, as produced by
`strftime` field directives and by `format(n, "03d")`. -/
def padNum (width : Nat) (n : Int) : List Char :=
  let ds := Nat.toDigits 10 n.natAbs
  List.replicate (width - ds.length) '0' ++ ds

/-- Breakdown of `datetime.fromtimestamp(secs)` into calendar components.
CPython converts through the local timezone, modelled by an explicit offset
in seconds added to the epoch value; UTC is offset 0. -/
def fromtimestampCivil (tzOffset secs : Int) :
    Int × Int × Int × Int × Int × Int :=
  let t := secs + tzOffset
  let days := Int.fdiv t 86400
  let sod := Int.fmod t 86400
  let ymd := civilFromDays days
  (ymd.1, ymd.2.1, ymd.2.2, Int.fdiv sod 3600, Int.fdiv (Int.fmod sod 3600) 60,
    Int.fmod sod 60)

/-- Source `ts_to_iso8601` (crix_to_ccxt.py lines 709-712).  The source
formats `datetime.fromtimestamp(timestamp // 1000)` - local time, not UTC -
with `strftime` pattern year-month-dayThour:minute:second.microseconds,
drops the six microsecond digits with `[:-6]` (they are zero anyway since
the seconds value is integral), appends `int(timestamp) % 1000` zero-padded
to three digits, and appends the literal Z. -/
def ts_to_iso8601 (tzOffset : Int) (timestamp : Int) : List Char :=
  let secs := Int.fdiv timestamp 1000
  let c := fromtimestampCivil tzOffset secs
  padNum 4 c.1 ++ '-' :: padNum 2 c.2.1 ++ '-' :: padNum 2 c.2.2.1
    ++ 'T' :: padNum 2 c.2.2.2.1 ++ ':' :: padNum 2 c.2.2.2.2.1
    ++ ':' :: padNum 2 c.2.2.2.2.2
    ++ '.' :: (padNum 3 (Int.fmod timestamp 1000) ++ ['Z'])

/-- Native market record as returned by the crix SDK `fetch_markets`, with
the fields `load_markets` reads.  Decimal fields are carried as rationals. -/
structure NativeMarket where
  name : List Char
  base : List Char
  quote : List Char
  is_trading : Bool
  min_lot : Rat
  max_lot : Rat
  min_price : Rat
  max_price : Rat
  maker_fee : Rat
  taker_fee : Rat
  deriving DecidableEq, Repr

/-- Normalized market entry built by `load_markets` (crix_to_ccxt.py lines
120-156).  The two precision fields derived through
`precision_from_string(str(float(...)))` depend on CPython float repr and are
not inspected by any verified claim; the remaining fields are carried
faithfully, including the whole native item under `info`. -/
structure MarketEntry where
  id : List Char
  symbol : List Char
  base : List Char
  quote : List Char
  active : Bool
  amount_min : Rat
  amount_max : Rat
  price_min : Rat
  price_max : Rat
  maker : Rat
  taker : Rat
  info : NativeMarket
  deriving DecidableEq, Repr

/-- Native candle as returned by the crix SDK `fetch_ohlcv`; `open_time` is a
datetime, modelled as epoch seconds. -/
structure NativeCandle where
  open_time : Rat
  open_price : Rat
  high : Rat
  low : Rat
  close : Rat
  volume : Rat
  deriving DecidableEq, Repr

/-- One normalized OHLCV row `[ts, open, high, low, close, vol]` with the
timestamp in epoch milliseconds. -/
structure OhlcvRow where
  ts : Rat
  open_price : Rat
  high : Rat
  low : Rat
  close : Rat
  volume : Rat
  deriving DecidableEq, Repr

/-- Environment of one adapter invocation: the current wall-clock instant
(epoch seconds) and the opaque transport collaborator, modelled as total
functions returning the native payloads. -/
structure FetchEnv where
  now : Rat
  markets_resp : List NativeMarket
  candles : List Char → Rat → Rat → Resolution → Int → List NativeCandle

/-- Mutable client state touched by the modelled operations: the lazily
populated market cache (initialized to `None` in the constructor) and the
last-request timestamp. -/
structure ClientState where
  markets : Option (List (List Char × MarketEntry))
  lastRestRequestTimestamp : Rat
  deriving DecidableEq, Repr

/-- Python truthiness of the `self.markets` attribute: `None` and the empty
dictionary are falsy. -/
def pyTruthyMarkets : Option (List (List Char × MarketEntry)) → Bool
  | none => false
  | some d => !d.isEmpty

/-- Market dictionary built by the loop of `load_markets` (crix_to_ccxt.py
lines 120-157): one insertion per native item keyed by `base + "/" + quote`,
with Python dictionary update semantics. -/
def load_markets_dict (resp : List NativeMarket) : List (List Char × MarketEntry) :=
  resp.foldl
    (fun markets item =>
      dictInsert markets (item.base ++ '/' :: item.quote)
        { id := item.name
          symbol := item.base ++ '/' :: item.quote
          base := item.base
          quote := item.quote
          active := item.is_trading
          amount_min := item.min_lot
          amount_max := item.max_lot
          price_min := item.min_price
          price_max := item.max_price
          maker := item.maker_fee
          taker := item.taker_fee
          info := item })
    []

/-- Source `load_markets` (crix_to_ccxt.py lines 108-158): fetch through the
transport, rebuild the normalized table, replace the cache, stamp the request
time, and return the fresh table. -/
def load_markets (env : FetchEnv) (st : ClientState) :
    List (List Char × MarketEntry) × ClientState :=
  let markets := load_markets_dict env.markets_resp
  (markets, { markets := some markets, lastRestRequestTimestamp := env.now })

/-- Source `to_array` (crix_to_ccxt.py lines 697-699) applied to the markets
dictionary: `list(value.keys())`, the list of symbol keys.  The non-dict
branch of the source (`else value`) is never taken on this call site. -/
def to_array (d : List (List Char × MarketEntry)) : List (List Char) :=
  d.map fun p => p.1

/-- Source `fetch_markets` (crix_to_ccxt.py lines 160-169): the cached table
through `to_array` when the cache is truthy, otherwise `load_markets` first. -/
def fetch_markets (env : FetchEnv) (st : ClientState) :
    List (List Char) × ClientState :=
  if pyTruthyMarkets st.markets then (to_array (st.markets.getD []), st)
  else
    let r := load_markets env st
    (to_array r.1, r.2)

/-- Source `datetime.fromtimestamp` as used by `fetch_ohlcv`: converts an
epoch value to a datetime, raising `OSError` when the value is outside the
platform-representable range `[lo, hi]` (the bounds are environment facts,
kept abstract as parameters). -/
def fromtimestamp (lo hi : Rat) (x : Rat) : Except PyExc Rat :=
  if lo ≤ x ∧ x ≤ hi then Except.ok x else Except.error PyExc.osError

/-- The `since` handling of `fetch_ohlcv` (crix_to_ccxt.py lines 196-208).
When `since` is a number whose direct conversion fails, the first
`except OSError` clause retries with `since / 1000`; an error raised inside
that handler propagates, because the second `except OSError` clause of the
same `try` is unreachable (the first matching clause always wins) and a
handler does not catch exceptions raised by a sibling handler. -/
def resolve_since (lo hi now : Rat) (timeframe : List Char)
    (since : Option Rat) (limit : Int) : Except PyExc Rat :=
  match since with
  | none => generate_ohlcv_start_time now timeframe none limit
  | some s =>
    match fromtimestamp lo hi s with
    | Except.ok d => Except.ok d
    | Except.error _ => fromtimestamp lo hi (s / 1000)

/-- The fixed valid page sizes of `fetch_ohlcv` (crix_to_ccxt.py line 179,
crix.py line 153). -/
def valid_limits : List Int := [1, 5, 10, 20, 50, 100, 500, 1000]

/-- Source `fetch_ohlcv` (crix_to_ccxt.py lines 174-226): lazy markets load,
symbol and timeframe translation, page-size validation with the soft-fail
empty return, `since` resolution, transport call and row normalization.  The
warning printed on an invalid limit is I/O and outside the model; the
modelled outcome is the returned value. -/
def fetch_ohlcv (lo hi : Rat) (env : FetchEnv) (st : ClientState)
    (symbol timeframe : List Char) (since : Option Rat) (limit : Int) :
    Except PyExc (List OhlcvRow × ClientState) :=
  let st1 := if pyTruthyMarkets st.markets then st else (load_markets env st).2
  let req_symbol := ccxt_to_crix_symbol symbol
  match timeframes timeframe with
  | none => Except.error (PyExc.keyError timeframe)
  | some req_timeframe =>
    if limit ∈ valid_limits then
      let utc_end_time := env.now
      match resolve_since lo hi env.now timeframe since limit with
      | Except.error e => Except.error e
      | Except.ok since_dt =>
        let req := env.candles req_symbol since_dt utc_end_time req_timeframe limit
        let rows := req.map fun item =>
          { ts := item.open_time * 1000
            open_price := item.open_price
            high := item.high
            low := item.low
            close := item.close
            volume := item.volume : OhlcvRow }
        Except.ok (rows, { st1 with lastRestRequestTimestamp := env.now })
    else
      Except.ok ([], st1)

/-- Value type of the optional `time_in_force` entry of the params
dictionary passed to `create_order`; it models `crix.models.TimeInForce`,
which exists in the SDK library but is never imported by the source module. -/
inductive TifVal where
  | good_till_cancel
  | other
  deriving DecidableEq, Repr

/-- Params dictionary accepted by `create_order`: the three optional entries
the source reads. -/
structure OrderParams where
  time_in_force : Option TifVal
  stop_price : Option Rat
  expire_time : Option Rat
  deriving DecidableEq, Repr

/-- Native new-order request the source intends to build. -/
structure NewOrderReq where
  symbol : List Char
  price : Rat
  quantity : Rat
  is_buy : Bool
  time_in_force : TifVal
  stop_price : Option Rat
  expire_time : Option Rat
  deriving DecidableEq, Repr

/-- Local values computed by `create_order` before the failing line: native
symbol, case-insensitive buy flag, and the exact decimal coercions (Decimal
of a rational is the identity here). -/
def create_order_locals (symbol side : List Char) (amount price : Rat) :
    List Char × Bool × Rat × Rat :=
  (ccxt_to_crix_symbol symbol, pyUpper side = "BUY".toList, amount, price)

/-- Source `create_order` (crix_to_ccxt.py lines 372-414).  After computing
the local values, the source evaluates
`params.get(..., TimeInForce.good_till_cancel)`; Python evaluates the default
argument eagerly and the name `TimeInForce` is not bound in the module (line
13 imports only `Resolution` and `NewOrder`), so every call raises
`NameError` before any native order is built, whatever `params` holds. -/
def create_order (symbol type side : List Char) (amount price : Rat)
    (params : OrderParams) : Except PyExc NewOrderReq :=
  let locals := create_order_locals symbol side amount price
  let req_symbol := locals.1
  let is_buy := locals.2.1
  let req_amount := locals.2.2.1
  let req_price := locals.2.2.2
  Except.error (PyExc.nameError "TimeInForce")

end CrixToCcxt

namespace Crix

/-- One entry of the `symbol` array in the JSON payload of
`/info/symbols`, with the fields crix.py `load_markets` reads. -/
structure SymbolInfo where
  symbolName : List Char
  base : List Char
  quote : List Char
  trading : Bool
  basePrecision : Int
  quotePrecision : Int
  minLot : Rat
  maxLot : Rat
  minPrice : Rat
  maxPrice : Rat
  makerFee : Rat
  takerFee : Rat
  deriving DecidableEq, Repr

/-- Normalized market record built by crix.py `load_markets`
(lines 90-124). -/
structure MarketRecord where
  id : List Char
  symbol : List Char
  base : List Char
  quote : List Char
  active : Bool
  precision_base : Int
  precision_quote : Int
  amount_min : Rat
  amount_max : Rat
  price_min : Rat
  price_max : Rat
  maker : Rat
  taker : Rat
  info : SymbolInfo
  deriving DecidableEq, Repr

/-- One `[ts, open, high, low, close, vol]` row of crix.py `fetch_ohlcv`,
whose timestamp is the raw `openTime` field of the JSON item. -/
structure OhlcvRowRaw where
  ts : Rat
  open_price : Rat
  high : Rat
  low : Rat
  close : Rat
  volume : Rat
  deriving DecidableEq, Repr

/-- Environment of one crix.py invocation: the current instant and the
transport payloads (the HTTP layer is assumed to answer with status 200, so
`APIError.ensure` passes; transport failures are out of scope). -/
structure Env where
  now : Rat
  symbols_resp : List SymbolInfo
  klines : List Char → Option Rat → Int → List Char → Int → List OhlcvRowRaw

/-- Mutable state of the crix.py client: the markets cache, initialized to
the empty dictionary in the constructor. -/
structure State where
  markets : List (List Char × MarketRecord)
  deriving DecidableEq, Repr

/-- Source crix.py `load_markets` (lines 75-126): rebuild the table from the
transport payload (the empty-array guard of the source coincides with a fold
over the empty list) and replace the cache. -/
def load_markets (env : Env) (st : State) :
    List (List Char × MarketRecord) × State :=
  let markets := env.symbols_resp.foldl
    (fun markets item =>
      dictInsert markets (item.base ++ '/' :: item.quote)
        { id := item.symbolName
          symbol := item.base ++ '/' :: item.quote
          base := item.base
          quote := item.quote
          active := item.trading
          precision_base := item.basePrecision
          precision_quote := item.quotePrecision
          amount_min := item.minLot
          amount_max := item.maxLot
          price_min := item.minPrice
          price_max := item.maxPrice
          maker := item.makerFee
          taker := item.takerFee
          info := item })
    []
  (markets, { markets := markets })

/-- Source crix.py `to_array` (lines 196-198) on the markets dictionary:
`list(value.values())`. -/
def to_array (d : List (List Char × MarketRecord)) : List MarketRecord :=
  d.map fun p => p.2

/-- Source crix.py `fetch_markets` (lines 128-137).  The populated-cache
branch returns `to_array(markets)`.  The empty-cache branch reads the
attribute `self.to_arrya` - a misspelling of `to_array` - and Python
evaluates the callee before its argument, so `AttributeError` is raised
before `load_markets` even runs. -/
def fetch_markets (st : State) : Except PyExc (List MarketRecord × State) :=
  if !st.markets.isEmpty then Except.ok (to_array st.markets, st)
  else Except.error (PyExc.attributeError "to_arrya")

/-- Source crix.py timeframes dictionary (lines 54-63), as the lookup
`self.timeframes[timeframe]`. -/
def timeframes (t : List Char) : Option (List Char) :=
  if t = "1m".toList then some "1".toList
  else if t = "5m".toList then some "5".toList
  else if t = "15m".toList then some "15".toList
  else if t = "30m".toList then some "30".toList
  else if t = "1h".toList then some "60".toList
  else if t = "2h".toList then some "120".toList
  else if t = "4h".toList then some "240".toList
  else if t = "1d".toList then some "D".toList
  else none

/-- Source crix.py `ccxt_to_crix_symbol` (lines 200-205): the replacement is
guarded by a containment test and the input is passed through unchanged when
no separator is present. -/
def ccxt_to_crix_symbol (symbol : List Char) : List Char :=
  if '/' ∈ symbol then pyReplaceChar '/' '_' symbol else symbol

/-- Source crix.py `fetch_ohlcv` (lines 142-194): lazy markets load, symbol
and timeframe translation, page-size validation with the soft-fail empty
return, transport call and row collection.  The `since` value is forwarded
raw in the request payload.  The warning print on an invalid limit is I/O
and outside the model. -/
def fetch_ohlcv (env : Env) (st : State) (symbol timeframe : List Char)
    (since : Option Rat) (limit : Int) :
    Except PyExc (List OhlcvRowRaw × State) :=
  let st1 := if !st.markets.isEmpty then st else (load_markets env st).2
  let req_symbol := ccxt_to_crix_symbol symbol
  match timeframes timeframe with
  | none => Except.error (PyExc.keyError timeframe)
  | some req_timeframe =>
    if limit ∈ CrixToCcxt.valid_limits then
      let endTime : Int := ⌊env.now * 1000⌋
      Except.ok (env.klines req_symbol since endTime req_timeframe limit, st1)
    else
      Except.ok ([], st1)

end Crix

/-- Modelled from the spec: the specification words for `filter_by_since`
are "keep records whose timestamp is present and >= since; keep records with
no timestamp at all".  This definition follows those words, to be compared
with the source definition. -/
def filter_by_since_spec (array : List CrixToCcxt.TsRecord) (since : Int) :
    List CrixToCcxt.TsRecord :=
  array.filter fun item =>
    match item.timestamp with
    | none => true
    | some t => decide (t ≥ since)

/-! Concrete sample data used by witnesses and counterexamples. -/

/-- Sample native market payload. -/
def sampleMarket : CrixToCcxt.NativeMarket :=
  { name := "ETHBTC".toList
    base := "ETH".toList
    quote := "BTC".toList
    is_trading := true
    min_lot := 1
    max_lot := 1000
    min_price := 1
    max_price := 10
    maker_fee := 1
    taker_fee := 2 }

/-- Sample invocation environment: one market, a transport that returns no
candles. -/
def sampleEnv : CrixToCcxt.FetchEnv :=
  { now := 1700000000
    markets_resp := [sampleMarket]
    candles := fun _ _ _ _ _ => [] }

/-- Client state right after the constructor: no market cache, zero request
timestamp. -/
def sampleState : CrixToCcxt.ClientState :=
  { markets := none, lastRestRequestTimestamp := 0 }

/-- Sample native order with a chosen status enumerant value. -/
def sampleOrder (s : Int) : CrixToCcxt.NativeOrder :=
  { id := 7
    statusValue := s
    symbol_name := "ETH_BTC".toList
    is_buy := true
    price := 2
    quantity := 5
    filled_quantity := 3 }

/-- Sample environment for the crix.py client. -/
def crixSampleEnv : Crix.Env :=
  { now := 1700000000
    symbols_resp := []
    klines := fun _ _ _ _ _ => [] }

/-- Sample symbol payload for the crix.py client. -/
def crixSampleSymbolInfo : Crix.SymbolInfo :=
  { symbolName := "ETHBTC".toList
    base := "ETH".toList
    quote := "BTC".toList
    trading := true
    basePrecision := 8
    quotePrecision := 8
    minLot := 1
    maxLot := 1000
    minPrice := 1
    maxPrice := 10
    makerFee := 1
    takerFee := 2 }

/-- Sample normalized market record for the crix.py client. -/
def crixSampleMarket : Crix.MarketRecord :=
  { id := "ETHBTC".toList
    symbol := "ETH/BTC".toList
    base := "ETH".toList
    quote := "BTC".toList
    active := true
    precision_base := 8
    precision_quote := 8
    amount_min := 1
    amount_max := 1000
    price_min := 1
    price_max := 10
    maker := 1
    taker := 2
    info := crixSampleSymbolInfo }

/-! Helper lemmas. -/

/-- Replacing a character that does not occur leaves the string unchanged. -/
theorem pyReplaceChar_id_of_not_mem (old new : Char) (s : List Char)
    (h : old ∉ s) : pyReplaceChar old new s = s := by
  induction s with
  | nil => rfl
  | cons c t ih =>
    simp only [List.mem_cons, not_or] at h
    have hc : ¬ c = old := fun hh => h.1 hh.symm
    simp [pyReplaceChar, hc, ih h.2]

/-- Replacing the slash by the underscore and back is the identity on strings
without an underscore. -/
theorem pyReplaceChar_slash_roundtrip (s : List Char) (h : '_' ∉ s) :
    pyReplaceChar '_' '/' (pyReplaceChar '/' '_' s) = s := by
  induction s with
  | nil => rfl
  | cons c t ih =>
    simp only [List.mem_cons, not_or] at h
    by_cases hc : c = '/'
    · simp [pyReplaceChar, hc, ih h.2]
    · have hcu : ¬ c = '_' := fun hh => h.1 hh.symm
      simp [pyReplaceChar, hc, hcu, ih h.2]

/-! Claim theorems. -/

/-- C1: the claim says `generate_ohlcv_start_time(now, timeframe, since,
limit)` returns `now` minus `timeframe_minutes * limit` minutes.  The code
diverges: `get_min_hr_day` leaves `hours` as the total whole hours instead
of the remainder modulo 24, so every whole day in the total is subtracted
twice.  At `timeframe = 1d`, `limit = 1` (1440 minutes) the code decomposes
into days = 1, hours = 24, minutes = 0 and subtracts 172800 seconds, two
days instead of one; below one day (here 4h times 5 = 1200 minutes) the code
agrees with the claim. -/
theorem c1_start_time_divergence :
    CrixToCcxt.generate_ohlcv_start_time 0 "1d".toList none 1 = Except.ok (-172800)
  ∧ (-172800 : Rat) ≠ 0 - 1440 * 60
  ∧ CrixToCcxt.get_min_hr_day 1440 = (1, 24, 0)
  ∧ CrixToCcxt.generate_ohlcv_start_time 0 "4h".toList none 5 = Except.ok (0 - 5 * 240 * 60) := by
  have h1 : CrixToCcxt.timeframe_total_minutes "1d".toList 1 = some 1440 := by decide
  have h2 : CrixToCcxt.timeframe_total_minutes "4h".toList 5 = some 1200 := by decide
  have g1 : CrixToCcxt.get_min_hr_day 1440 = (1, 24, 0) := by decide
  have g2 : CrixToCcxt.get_min_hr_day 1200 = (0, 20, 0) := by decide
  refine ⟨?_, by norm_num, g1, ?_⟩
  · simp only [CrixToCcxt.generate_ohlcv_start_time, h1, g1]
    norm_num
  · simp only [CrixToCcxt.generate_ohlcv_start_time, h2, g2]
    norm_num

/-- C2 counterexample: at native status value 3 the code does not raise the
`UnknownOrderStatus` error the claim names (no such error exists in the
source); referencing the never-assigned local `ord_status` raises
`UnboundLocalError` instead. -/
theorem c2_counterexample :
    CrixToCcxt.parse_order (sampleOrder 3) = Except.error (PyExc.unboundLocalError "ord_status")
  ∧ CrixToCcxt.parse_order (sampleOrder 3) ≠ Except.error PyExc.unknownOrderStatus := by
  refine ⟨by decide, by decide⟩

/-- C2 amended: `CrixToCcxt.parse_order` maps native status value 0 to open, 1 to
closed and 2 to canceled, and for every status value outside 0, 1, 2 it
fails with the unbound-local error on `ord_status` - an error, not a silent
default, but not a dedicated `UnknownOrderStatus` error. -/
theorem c2_parse_order_status (order : CrixToCcxt.NativeOrder) :
    (order.statusValue = 0 →
      CrixToCcxt.orderStatusResult (CrixToCcxt.parse_order order) = Except.ok "open".toList)
  ∧ (order.statusValue = 1 →
      CrixToCcxt.orderStatusResult (CrixToCcxt.parse_order order) = Except.ok "closed".toList)
  ∧ (order.statusValue = 2 →
      CrixToCcxt.orderStatusResult (CrixToCcxt.parse_order order) = Except.ok "canceled".toList)
  ∧ (order.statusValue ≠ 0 → order.statusValue ≠ 1 → order.statusValue ≠ 2 →
      CrixToCcxt.parse_order order = Except.error (PyExc.unboundLocalError "ord_status")) := by
  refine ⟨fun h => ?_, fun h => ?_, fun h => ?_, fun h0 h1 h2 => ?_⟩ <;>
    simp [CrixToCcxt.parse_order, CrixToCcxt.orderStatusResult, Except.map, *]

/-- C2 witness: the amended mapping evaluated at concrete orders with status
values 0, 1, 2 and 3. -/
theorem c2_parse_order_status_witness :
    CrixToCcxt.orderStatusResult (CrixToCcxt.parse_order (sampleOrder 0)) = Except.ok "open".toList
  ∧ CrixToCcxt.orderStatusResult (CrixToCcxt.parse_order (sampleOrder 1)) = Except.ok "closed".toList
  ∧ CrixToCcxt.orderStatusResult (CrixToCcxt.parse_order (sampleOrder 2)) = Except.ok "canceled".toList
  ∧ CrixToCcxt.parse_order (sampleOrder 3) = Except.error (PyExc.unboundLocalError "ord_status") :=
  ⟨(c2_parse_order_status (sampleOrder 0)).1 rfl,
   (c2_parse_order_status (sampleOrder 1)).2.1 rfl,
   (c2_parse_order_status (sampleOrder 2)).2.2.1 rfl,
   (c2_parse_order_status (sampleOrder 3)).2.2.2 (by decide) (by decide) (by decide)⟩

/-- C4 counterexample: a record whose timestamp is present but equal to zero.
The claim keeps exactly the records with a present timestamp at least
`since`, so it drops the record for `since = 150`; the code tests Python
truthiness, zero is falsy, and the record is kept unconditionally. -/
theorem c4_counterexample :
    CrixToCcxt.filter_array_by_since [⟨some 0, 1⟩] 150 = [⟨some 0, 1⟩]
  ∧ filter_by_since_spec [⟨some 0, 1⟩] 150 = []
  ∧ CrixToCcxt.filter_array_by_since [⟨some 0, 1⟩] 150
      ≠ filter_by_since_spec [⟨some 0, 1⟩] 150 := by
  refine ⟨by decide, by decide, by decide⟩

/-- C4 amended: `filter_array_by_since` returns exactly the records whose
timestamp is present, nonzero and at least `since`, together with all
records whose timestamp is absent or zero (truthiness treats a zero
timestamp like a missing one), preserving the input order - it is the
order-preserving filter by that predicate. -/
theorem c4_filter_by_since_exact (array : List CrixToCcxt.TsRecord) (since : Int) :
    CrixToCcxt.filter_array_by_since array since =
      array.filter fun item =>
        match item.timestamp with
        | none => true
        | some t => if t = 0 then true else decide (t ≥ since) := by
  induction array with
  | nil => rfl
  | cons item rest ih =>
    cases h : item.timestamp with
    | none => simp [CrixToCcxt.filter_array_by_since, List.filter, h, ih]
    | some t =>
      by_cases h0 : t = 0
      · simp [CrixToCcxt.filter_array_by_since, List.filter, h, h0, ih]
      · by_cases hge : t ≥ since
        · simp [CrixToCcxt.filter_array_by_since, List.filter, h, h0, hge, ih]
        · simp [CrixToCcxt.filter_array_by_since, List.filter, h, h0, hge, ih]

/-- C5 counterexample: the string `A_B/C` contains exactly one slash yet
fails the round trip, because `to_native` maps its slash to an underscore
and `to_normalized` then rewrites the pre-existing underscore as well. -/
theorem c5_counterexample :
    "A_B/C".toList.count '/' = 1
  ∧ CrixToCcxt.crix_to_ccxt_symbol (CrixToCcxt.ccxt_to_crix_symbol "A_B/C".toList)
      ≠ "A_B/C".toList := by
  refine ⟨by decide, by decide⟩

/-- C5 amended: the round trip
`crix_to_ccxt_symbol (ccxt_to_crix_symbol s) = s` holds for every symbol
with exactly one slash and no underscore; and a string without a slash is
returned unchanged by `ccxt_to_crix_symbol`, both by the crix_to_ccxt.py
version (an unguarded replace) and by the guarded crix.py version. -/
theorem c5_symbol_roundtrip :
    (∀ s : List Char, s.count '/' = 1 → '_' ∉ s →
        CrixToCcxt.crix_to_ccxt_symbol (CrixToCcxt.ccxt_to_crix_symbol s) = s)
  ∧ (∀ s : List Char, '/' ∉ s → CrixToCcxt.ccxt_to_crix_symbol s = s)
  ∧ (∀ s : List Char, '/' ∉ s → Crix.ccxt_to_crix_symbol s = s) := by
  refine ⟨fun s _ h => pyReplaceChar_slash_roundtrip s h,
    fun s h => pyReplaceChar_id_of_not_mem '/' '_' s h,
    fun s h => ?_⟩
  simp [Crix.ccxt_to_crix_symbol, h]

/-- C5 witness: the round trip at `ETH/BTC` and the no-separator passthrough
at `ETHBTC`. -/
theorem c5_symbol_roundtrip_witness :
    CrixToCcxt.crix_to_ccxt_symbol (CrixToCcxt.ccxt_to_crix_symbol "ETH/BTC".toList)
      = "ETH/BTC".toList
  ∧ CrixToCcxt.ccxt_to_crix_symbol "ETHBTC".toList = "ETHBTC".toList
  ∧ Crix.ccxt_to_crix_symbol "ETHBTC".toList = "ETHBTC".toList :=
  ⟨c5_symbol_roundtrip.1 "ETH/BTC".toList (by decide) (by decide),
   c5_symbol_roundtrip.2.1 "ETHBTC".toList (by decide),
   c5_symbol_roundtrip.2.2 "ETHBTC".toList (by decide)⟩

/-- C3: for every symbol and every supported timeframe, `fetch_ohlcv` with a
limit outside the enumerated set returns the empty list without raising, in
both the crix_to_ccxt.py version and the crix.py version, whatever the
environment, cache state and `since` value. -/
theorem c3_invalid_limit_soft_fail :
    (∀ (lo hi : Rat) (env : CrixToCcxt.FetchEnv) (st : CrixToCcxt.ClientState)
        (symbol timeframe : List Char) (since : Option Rat) (limit : Int),
        (CrixToCcxt.timeframes timeframe).isSome →
        limit ∉ CrixToCcxt.valid_limits →
        ∃ st2, CrixToCcxt.fetch_ohlcv lo hi env st symbol timeframe since limit
          = Except.ok ([], st2))
  ∧ (∀ (env : Crix.Env) (st : Crix.State) (symbol timeframe : List Char)
        (since : Option Rat) (limit : Int),
        (Crix.timeframes timeframe).isSome →
        limit ∉ CrixToCcxt.valid_limits →
        ∃ st2, Crix.fetch_ohlcv env st symbol timeframe since limit
          = Except.ok ([], st2)) := by
  constructor
  · intro lo hi env st symbol timeframe since limit htf hlim
    obtain ⟨r, hr⟩ := Option.isSome_iff_exists.mp htf
    refine ⟨if CrixToCcxt.pyTruthyMarkets st.markets then st
      else (CrixToCcxt.load_markets env st).2, ?_⟩
    simp only [CrixToCcxt.fetch_ohlcv, hr, if_neg hlim]
  · intro env st symbol timeframe since limit htf hlim
    obtain ⟨r, hr⟩ := Option.isSome_iff_exists.mp htf
    refine ⟨if !st.markets.isEmpty then st else (Crix.load_markets env st).2, ?_⟩
    simp only [Crix.fetch_ohlcv, hr, if_neg hlim]

/-- C3 witness: limit 7 is not in the valid set and both versions return the
empty list for it. -/
theorem c3_invalid_limit_soft_fail_witness :
    (∃ st2, CrixToCcxt.fetch_ohlcv 0 253402300800 sampleEnv sampleState
        "ETH/BTC".toList "1m".toList none 7 = Except.ok ([], st2))
  ∧ (∃ st2, Crix.fetch_ohlcv crixSampleEnv { markets := [] }
        "ETH/BTC".toList "1m".toList none 7 = Except.ok ([], st2)) :=
  ⟨c3_invalid_limit_soft_fail.1 0 253402300800 sampleEnv sampleState
      "ETH/BTC".toList "1m".toList none 7 (by decide) (by decide),
   c3_invalid_limit_soft_fail.2 crixSampleEnv { markets := [] }
      "ETH/BTC".toList "1m".toList none 7 (by decide) (by decide)⟩

/-- C6: the millisecond suffix behaves as claimed - at UTC offset zero the
formatted string for 1680000000123 is exactly 2023-03-28T10:40:00.123Z - but
the date and time components come from `datetime.fromtimestamp`, which
converts through the local timezone, while the claim demands UTC components
under the literal Z suffix.  In a UTC+1 environment (offset 3600 seconds)
epoch 0 formats as 01:00:00 instead of the UTC 00:00:00. -/
theorem c6_ts_to_iso8601_local_time :
    CrixToCcxt.ts_to_iso8601 0 1680000000123 = "2023-03-28T10:40:00.123Z".toList
  ∧ CrixToCcxt.ts_to_iso8601 3600 0 = "1970-01-01T01:00:00.000Z".toList
  ∧ CrixToCcxt.ts_to_iso8601 0 0 = "1970-01-01T00:00:00.000Z".toList
  ∧ CrixToCcxt.ts_to_iso8601 3600 0 ≠ CrixToCcxt.ts_to_iso8601 0 0 := by
  refine ⟨by decide, by decide, by decide, by decide⟩

/-- C7: a numeric `since` that is not convertible to a point in time makes
`fetch_ohlcv` raise instead of returning the empty list the claim promises.
With platform range 0 to 253402300800 seconds, the value 10^18 fails the
direct conversion, the retry with the value divided by 1000 fails as well,
and that failure propagates: the second `except OSError` clause of the
source, the one that would return the empty list, is unreachable. -/
theorem c7_unparseable_since_raises :
    CrixToCcxt.fetch_ohlcv 0 253402300800 sampleEnv sampleState "ETH/BTC".toList
      "1m".toList (some 1000000000000000000) 10 = Except.error PyExc.osError := by
  have h1 : CrixToCcxt.fromtimestamp 0 253402300800 1000000000000000000
      = Except.error PyExc.osError := by
    norm_num [CrixToCcxt.fromtimestamp]
  have h2 : CrixToCcxt.fromtimestamp 0 253402300800 (1000000000000000000 / 1000)
      = Except.error PyExc.osError := by
    norm_num [CrixToCcxt.fromtimestamp]
  have ht : CrixToCcxt.timeframes "1m".toList
      = some CrixToCcxt.Resolution.one_minute := by decide
  have hm : (10 : Int) ∈ CrixToCcxt.valid_limits := by decide
  simp only [CrixToCcxt.fetch_ohlcv, CrixToCcxt.resolve_since, ht, h1, h2,
    if_pos hm]

/-- C8: `create_order` never reaches the point where a native order is
built: Python evaluates the default argument of
`params.get("time_in_force", TimeInForce.good_till_cancel)` eagerly and the
name `TimeInForce` is not bound in the module, so every call raises
`NameError`, with or without an explicit `time_in_force` entry in `params`.
The local values computed before the failing line do match the claim: the
side string is uppercased for the buy test and price and amount are kept
exact. -/
theorem c8_create_order_name_error :
    CrixToCcxt.create_order "ETH/BTC".toList "limit".toList "buy".toList 1 2
      { time_in_force := none, stop_price := none, expire_time := none }
      = Except.error (PyExc.nameError "TimeInForce")
  ∧ CrixToCcxt.create_order "ETH/BTC".toList "limit".toList "buy".toList 1 2
      { time_in_force := some CrixToCcxt.TifVal.good_till_cancel, stop_price := none,
        expire_time := none }
      = Except.error (PyExc.nameError "TimeInForce")
  ∧ CrixToCcxt.create_order_locals "ETH/BTC".toList "buy".toList 1 2
      = ("ETH_BTC".toList, true, 1, 2) := by
  refine ⟨rfl, rfl, by decide⟩

/-- C9: the throttle compares an elapsed time measured in seconds against a
rate limit configured in milliseconds and sleeps the difference divided by
1000.  With the configured rateLimit of 1000 (one second as documented) and
two seconds elapsed - at least the minimum interval - the claim says no
block, yet the code sleeps 499/500 seconds; and with half a second elapsed
the code sleeps 1999/2000 seconds, not the remaining difference of half a
second the claim requires. -/
theorem c9_throttle_unit_mismatch :
    ((2 : Rat) - 0 ≥ 1000 / 1000)
  ∧ CrixToCcxt.throttle 1000 2 0 = 499 / 500
  ∧ CrixToCcxt.throttle 1000 2 0 ≠ 0
  ∧ CrixToCcxt.throttle 1000 (1 / 2) 0 ≠ 1000 / 1000 - 1 / 2 := by
  refine ⟨by norm_num, ?_, ?_, ?_⟩ <;> norm_num [CrixToCcxt.throttle]

/-- C10: the crix_to_ccxt.py `fetch_markets` behaves as the claim says (the
cached keys when the cache is truthy, a `load_markets` round trip and the
fresh keys otherwise), but the crix.py copy contradicts it on the
empty-cache path: the misspelled attribute `to_arrya` raises
`AttributeError` before `load_markets` even runs, while the populated-cache
path still returns the cached values as a list. -/
theorem c10_fetch_markets_typo :
    Crix.fetch_markets { markets := [] } = Except.error (PyExc.attributeError "to_arrya")
  ∧ Crix.fetch_markets { markets := [("ETH/BTC".toList, crixSampleMarket)] }
      = Except.ok ([crixSampleMarket], { markets := [("ETH/BTC".toList, crixSampleMarket)] })
  ∧ CrixToCcxt.fetch_markets sampleEnv sampleState
      = (["ETH/BTC".toList], (CrixToCcxt.load_markets sampleEnv sampleState).2)
  ∧ CrixToCcxt.fetch_markets sampleEnv (CrixToCcxt.load_markets sampleEnv sampleState).2
      = (["ETH/BTC".toList], (CrixToCcxt.load_markets sampleEnv sampleState).2) := by
  refine ⟨by decide, by decide, by decide, by decide⟩

end CrixAdapter
